import Mathlib

/-!
Verification of the invocation gateway and event-trigger registry of the
`oprc-py` Rust crate (files `src/handler.rs` and `src/model.rs`).

The Rust code is shallowly embedded: structs become Lean structures,
`HashMap` fields become function maps `κ → Option α` (the extensional view
of a hash map with unique keys), `Vec<u8>` becomes `List Nat`, and the
fallible engine callback becomes an `Except String` value describing its
outcome.  Each embedded definition mirrors one Rust item, named after it.
-/

/-- `oprc_pb::ResponseStatus` (closed status enum of the wire protocol). -/
inductive ResponseStatus where
  | Okay
  | InvalidRequest
  | AppError
  | SystemError
deriving DecidableEq

/-- `ResponseStatus as i32` — the numeric value carried on the wire. -/
def ResponseStatus.toInt : ResponseStatus → Int
  | .Okay => 0
  | .InvalidRequest => 1
  | .AppError => 2
  | .SystemError => 3

/-- `String::into_bytes` after `to_string`: the UTF-8 bytes of a Rust string. -/
def stringToBytes (s : String) : List Nat :=
  s.toUTF8.toList.map (fun b => b.toNat)

/-- `crate::model::InvocationResponse` (model.rs lines 99-106): the decoded,
transport-independent invocation result. -/
structure InvocationResponse where
  payload : List Nat
  status : Int
  header : List (String × String)
deriving DecidableEq

/-- `oprc_pb::InvocationResponse`: the protobuf wire form, whose `payload`
field is optional. -/
structure ProtoInvocationResponse where
  payload : Option (List Nat)
  status : Int
  headers : List (String × String)
deriving DecidableEq

/-- `impl From<oprc_pb::InvocationResponse> for InvocationResponse`
(model.rs lines 108-117): an absent payload becomes the default
(empty) byte vector via `unwrap_or_default`. -/
def InvocationResponse.from_proto (value : ProtoInvocationResponse) : InvocationResponse :=
  { payload := value.payload.getD []
    status := value.status
    header := value.headers }

/-- `impl From<InvocationResponse> for oprc_pb::InvocationResponse`
(model.rs lines 119-128): the payload is always wrapped in `Some`. -/
def InvocationResponse.into_proto (value : InvocationResponse) : ProtoInvocationResponse :=
  { payload := some value.payload
    status := value.status
    headers := value.header }

/-- `oprc_pb::InvocationResponse::default()`: every field at its protobuf
default (absent payload, status 0, no headers). -/
def protoResponseDefault : ProtoInvocationResponse :=
  { payload := none, status := 0, headers := [] }

/-- Gateway path for `invoke_fn` (handler.rs lines 29-52 and 81-106).
The engine callback either yields a model `InvocationResponse` (which the
free helper converts to wire form via `From<&InvocationResponse>`) or
fails with an error whose text is `err.to_string()`; the `OprcFunction`
implementation turns a failure into a synthesized `AppError` response and
never propagates it. -/
def invoke_fn_handle (engineOutcome : Except String InvocationResponse) :
    ProtoInvocationResponse :=
  match engineOutcome with
  | .ok output => output.into_proto
  | .error err =>
      { protoResponseDefault with
          payload := some (stringToBytes err)
          status := ResponseStatus.AppError.toInt }

/-- Gateway path for `invoke_obj` (handler.rs lines 54-77 and 108-137);
textually the same handling as `invoke_fn_handle`, kept separate because the
source duplicates it. -/
def invoke_obj_handle (engineOutcome : Except String InvocationResponse) :
    ProtoInvocationResponse :=
  match engineOutcome with
  | .ok output => output.into_proto
  | .error err =>
      { protoResponseDefault with
          payload := some (stringToBytes err)
          status := ResponseStatus.AppError.toInt }

/-- C1: if the execution-engine callback fails with fault text `err`, both
`invoke_fn` and `invoke_obj` return (rather than raise) a response whose
status is `AppError`, whose payload is the textual description of the fault,
and whose headers are empty. -/
theorem gateway_error_synthesizes_app_error (err : String) :
    invoke_fn_handle (.error err) =
      { payload := some (stringToBytes err)
        status := ResponseStatus.AppError.toInt
        headers := [] } ∧
    invoke_obj_handle (.error err) =
      { payload := some (stringToBytes err)
        status := ResponseStatus.AppError.toInt
        headers := [] } := by
  constructor <;> rfl

/-- C8: when the engine callback succeeds with response `r`, the gateway
returns exactly that response — same payload, same status, same headers —
for both entry points. -/
theorem gateway_success_passthrough (r : InvocationResponse) :
    invoke_fn_handle (.ok r) =
      { payload := some r.payload, status := r.status, headers := r.header } ∧
    invoke_obj_handle (.ok r) =
      { payload := some r.payload, status := r.status, headers := r.header } := by
  constructor <;> rfl

/-- C10: a wire response with an absent payload decodes to a model payload
equal to the empty byte string, every encoded model response has a present
payload, and hence a wire value with absent payload round-trips to one with
a present empty payload, not to itself. -/
theorem response_absent_payload_roundtrip (s : Int) (h : List (String × String)) :
    (InvocationResponse.from_proto { payload := none, status := s, headers := h }).payload
        = [] ∧
    (∀ r : InvocationResponse, (r.into_proto).payload = some r.payload) ∧
    (InvocationResponse.from_proto
        { payload := none, status := s, headers := h }).into_proto
      = { payload := some [], status := s, headers := h } ∧
    (InvocationResponse.from_proto
        { payload := none, status := s, headers := h }).into_proto
      ≠ { payload := none, status := s, headers := h } := by
  refine ⟨rfl, fun r => rfl, rfl, fun hc => ?_⟩
  have : (some ([] : List Nat)) = (none : Option (List Nat)) :=
    congrArg ProtoInvocationResponse.payload hc
  exact Option.noConfusion this

/-- `oprc_pb::TriggerTarget`: descriptor of a downstream invocation.
Equality is structural over all fields (derived `PartialEq`). -/
structure TriggerTarget where
  cls_id : String
  partition_id : Nat
  fn_id : String
  object_id : Option Nat
  req_options : List (String × String)
deriving DecidableEq

/-- `oprc_pb::FuncTrigger`: the two ordered target lists of one source
function id. -/
structure FuncTrigger where
  on_complete : List TriggerTarget
  on_error : List TriggerTarget
deriving DecidableEq

/-- `oprc_pb::DataTrigger`: the three ordered target lists of one source
field key. -/
structure DataTrigger where
  on_create : List TriggerTarget
  on_update : List TriggerTarget
  on_delete : List TriggerTarget
deriving DecidableEq

/-- `oprc_pb::ObjectEvent`: the per-object trigger registry.  The two
`HashMap`s are embedded as function maps (their extensional content). -/
structure ObjectEvent where
  func_trigger : String → Option FuncTrigger
  data_trigger : Nat → Option DataTrigger

/-- `crate::model::PyObjectEvent` (model.rs lines 380-382): a wrapper
holding an `oprc_pb::ObjectEvent` in its `inner` field. -/
structure PyObjectEvent where
  inner : ObjectEvent

/-- `HashMap::insert` on the function-map view: the map that sends `k` to
`some v` and every other key to its old value. -/
def mapInsert {κ α : Type} [DecidableEq κ] (m : κ → Option α) (k : κ) (v : α) :
    κ → Option α :=
  fun q => if q = k then some v else m q

/-- `Iterator::position(|t| t == &trigger)` on a target list: index of the
first structurally-equal element, if any. -/
def positionOf (trigger : TriggerTarget) : List TriggerTarget → Option Nat
  | [] => none
  | x :: xs => if x = trigger then some 0 else (positionOf trigger xs).map (· + 1)

/-- `Vec::remove(index)`: drop the element at `index`, shifting the rest. -/
def removeAt : List TriggerTarget → Nat → List TriggerTarget
  | [], _ => []
  | _ :: xs, 0 => xs
  | x :: xs, n + 1 => x :: removeAt xs n

/-- The `TriggerTarget` literal built inside each add/delete method
(`..Default::default()` leaves `req_options` empty). -/
def mkTrigger (target_cls_id : String) (target_partition_id : Nat)
    (target_fn_id : String) (target_object_id : Option Nat) : TriggerTarget :=
  { cls_id := target_cls_id
    partition_id := target_partition_id
    fn_id := target_fn_id
    object_id := target_object_id
    req_options := [] }

/-- `PyObjectEvent::new` (model.rs lines 403-407): both maps empty. -/
def PyObjectEvent.new : PyObjectEvent :=
  ⟨{ func_trigger := fun _ => none, data_trigger := fun _ => none }⟩

/-- `PyObjectEvent::add_on_complete_fn_event` (model.rs lines 411-441). -/
def PyObjectEvent.add_on_complete_fn_event (self : PyObjectEvent)
    (source_fn_id : String) (target_cls_id : String) (target_partition_id : Nat)
    (target_fn_id : String) (target_object_id : Option Nat) : Bool × PyObjectEvent :=
  let trigger := mkTrigger target_cls_id target_partition_id target_fn_id target_object_id
  match self.inner.func_trigger source_fn_id with
  | some l =>
      if trigger ∈ l.on_complete then (false, self)
      else
        let entry := { l with on_complete := l.on_complete ++ [trigger] }
        (true, ⟨{ self.inner with func_trigger := mapInsert self.inner.func_trigger source_fn_id entry }⟩)
  | none =>
      let f_trigger : FuncTrigger := { on_complete := [trigger], on_error := [] }
      (true, ⟨{ self.inner with func_trigger := mapInsert self.inner.func_trigger source_fn_id f_trigger }⟩)

/-- `PyObjectEvent::delete_on_complete_fn_event` (model.rs lines 445-471). -/
def PyObjectEvent.delete_on_complete_fn_event (self : PyObjectEvent)
    (source_fn_id : String) (target_cls_id : String) (target_partition_id : Nat)
    (target_fn_id : String) (target_object_id : Option Nat) : Bool × PyObjectEvent :=
  let trigger := mkTrigger target_cls_id target_partition_id target_fn_id target_object_id
  match self.inner.func_trigger source_fn_id with
  | some l =>
      match positionOf trigger l.on_complete with
      | some index =>
          let entry := { l with on_complete := removeAt l.on_complete index }
          (true, ⟨{ self.inner with func_trigger := mapInsert self.inner.func_trigger source_fn_id entry }⟩)
      | none => (false, self)
  | none => (false, self)

/-- `PyObjectEvent::add_on_error_fn_event` (model.rs lines 475-506). -/
def PyObjectEvent.add_on_error_fn_event (self : PyObjectEvent)
    (source_fn_id : String) (target_cls_id : String) (target_partition_id : Nat)
    (target_fn_id : String) (target_object_id : Option Nat) : Bool × PyObjectEvent :=
  let trigger := mkTrigger target_cls_id target_partition_id target_fn_id target_object_id
  match self.inner.func_trigger source_fn_id with
  | some l =>
      if trigger ∈ l.on_error then (false, self)
      else
        let entry := { l with on_error := l.on_error ++ [trigger] }
        (true, ⟨{ self.inner with func_trigger := mapInsert self.inner.func_trigger source_fn_id entry }⟩)
  | none =>
      let f_trigger : FuncTrigger := { on_complete := [], on_error := [trigger] }
      (true, ⟨{ self.inner with func_trigger := mapInsert self.inner.func_trigger source_fn_id f_trigger }⟩)

/-- `PyObjectEvent::delete_on_error_fn_event` (model.rs lines 510-534). -/
def PyObjectEvent.delete_on_error_fn_event (self : PyObjectEvent)
    (source_fn_id : String) (target_cls_id : String) (target_partition_id : Nat)
    (target_fn_id : String) (target_object_id : Option Nat) : Bool × PyObjectEvent :=
  let trigger := mkTrigger target_cls_id target_partition_id target_fn_id target_object_id
  match self.inner.func_trigger source_fn_id with
  | some l =>
      match positionOf trigger l.on_error with
      | some index =>
          let entry := { l with on_error := removeAt l.on_error index }
          (true, ⟨{ self.inner with func_trigger := mapInsert self.inner.func_trigger source_fn_id entry }⟩)
      | none => (false, self)
  | none => (false, self)

/-- `PyObjectEvent::add_on_create_data_event` (model.rs lines 538-570). -/
def PyObjectEvent.add_on_create_data_event (self : PyObjectEvent)
    (source_key : Nat) (target_cls_id : String) (target_partition_id : Nat)
    (target_fn_id : String) (target_object_id : Option Nat) : Bool × PyObjectEvent :=
  let trigger := mkTrigger target_cls_id target_partition_id target_fn_id target_object_id
  match self.inner.data_trigger source_key with
  | some l =>
      if trigger ∈ l.on_create then (false, self)
      else
        let entry := { l with on_create := l.on_create ++ [trigger] }
        (true, ⟨{ self.inner with data_trigger := mapInsert self.inner.data_trigger source_key entry }⟩)
  | none =>
      let d_trigger : DataTrigger := { on_create := [trigger], on_update := [], on_delete := [] }
      (true, ⟨{ self.inner with data_trigger := mapInsert self.inner.data_trigger source_key d_trigger }⟩)

/-- `PyObjectEvent::delete_on_create_data_event` (model.rs lines 574-598). -/
def PyObjectEvent.delete_on_create_data_event (self : PyObjectEvent)
    (source_key : Nat) (target_cls_id : String) (target_partition_id : Nat)
    (target_fn_id : String) (target_object_id : Option Nat) : Bool × PyObjectEvent :=
  let trigger := mkTrigger target_cls_id target_partition_id target_fn_id target_object_id
  match self.inner.data_trigger source_key with
  | some l =>
      match positionOf trigger l.on_create with
      | some index =>
          let entry := { l with on_create := removeAt l.on_create index }
          (true, ⟨{ self.inner with data_trigger := mapInsert self.inner.data_trigger source_key entry }⟩)
      | none => (false, self)
  | none => (false, self)

/-- `PyObjectEvent::add_on_update_data_event` (model.rs lines 602-634). -/
def PyObjectEvent.add_on_update_data_event (self : PyObjectEvent)
    (source_key : Nat) (target_cls_id : String) (target_partition_id : Nat)
    (target_fn_id : String) (target_object_id : Option Nat) : Bool × PyObjectEvent :=
  let trigger := mkTrigger target_cls_id target_partition_id target_fn_id target_object_id
  match self.inner.data_trigger source_key with
  | some l =>
      if trigger ∈ l.on_update then (false, self)
      else
        let entry := { l with on_update := l.on_update ++ [trigger] }
        (true, ⟨{ self.inner with data_trigger := mapInsert self.inner.data_trigger source_key entry }⟩)
  | none =>
      let d_trigger : DataTrigger := { on_create := [], on_update := [trigger], on_delete := [] }
      (true, ⟨{ self.inner with data_trigger := mapInsert self.inner.data_trigger source_key d_trigger }⟩)

/-- `PyObjectEvent::delete_on_update_data_event` (model.rs lines 638-662). -/
def PyObjectEvent.delete_on_update_data_event (self : PyObjectEvent)
    (source_key : Nat) (target_cls_id : String) (target_partition_id : Nat)
    (target_fn_id : String) (target_object_id : Option Nat) : Bool × PyObjectEvent :=
  let trigger := mkTrigger target_cls_id target_partition_id target_fn_id target_object_id
  match self.inner.data_trigger source_key with
  | some l =>
      match positionOf trigger l.on_update with
      | some index =>
          let entry := { l with on_update := removeAt l.on_update index }
          (true, ⟨{ self.inner with data_trigger := mapInsert self.inner.data_trigger source_key entry }⟩)
      | none => (false, self)
  | none => (false, self)

/-- `PyObjectEvent::add_on_delete_data_event` (model.rs lines 666-698). -/
def PyObjectEvent.add_on_delete_data_event (self : PyObjectEvent)
    (source_key : Nat) (target_cls_id : String) (target_partition_id : Nat)
    (target_fn_id : String) (target_object_id : Option Nat) : Bool × PyObjectEvent :=
  let trigger := mkTrigger target_cls_id target_partition_id target_fn_id target_object_id
  match self.inner.data_trigger source_key with
  | some l =>
      if trigger ∈ l.on_delete then (false, self)
      else
        let entry := { l with on_delete := l.on_delete ++ [trigger] }
        (true, ⟨{ self.inner with data_trigger := mapInsert self.inner.data_trigger source_key entry }⟩)
  | none =>
      let d_trigger : DataTrigger := { on_create := [], on_update := [], on_delete := [trigger] }
      (true, ⟨{ self.inner with data_trigger := mapInsert self.inner.data_trigger source_key d_trigger }⟩)

/-- `PyObjectEvent::delete_on_delete_data_event` (model.rs lines 702-726). -/
def PyObjectEvent.delete_on_delete_data_event (self : PyObjectEvent)
    (source_key : Nat) (target_cls_id : String) (target_partition_id : Nat)
    (target_fn_id : String) (target_object_id : Option Nat) : Bool × PyObjectEvent :=
  let trigger := mkTrigger target_cls_id target_partition_id target_fn_id target_object_id
  match self.inner.data_trigger source_key with
  | some l =>
      match positionOf trigger l.on_delete with
      | some index =>
          let entry := { l with on_delete := removeAt l.on_delete index }
          (true, ⟨{ self.inner with data_trigger := mapInsert self.inner.data_trigger source_key entry }⟩)
      | none => (false, self)
  | none => (false, self)

/-- The on-complete list selected by `(source fn id)`, empty when the source
id has no entry (the observable content of the registry at that slot). -/
def onCompleteList (e : PyObjectEvent) (s : String) : List TriggerTarget :=
  match e.inner.func_trigger s with
  | some l => l.on_complete
  | none => []

/-- The on-error list selected by `(source fn id)`. -/
def onErrorList (e : PyObjectEvent) (s : String) : List TriggerTarget :=
  match e.inner.func_trigger s with
  | some l => l.on_error
  | none => []

/-- The on-create list selected by `(source field key)`. -/
def onCreateList (e : PyObjectEvent) (k : Nat) : List TriggerTarget :=
  match e.inner.data_trigger k with
  | some l => l.on_create
  | none => []

/-- The on-update list selected by `(source field key)`. -/
def onUpdateList (e : PyObjectEvent) (k : Nat) : List TriggerTarget :=
  match e.inner.data_trigger k with
  | some l => l.on_update
  | none => []

/-- The on-delete list selected by `(source field key)`. -/
def onDeleteList (e : PyObjectEvent) (k : Nat) : List TriggerTarget :=
  match e.inner.data_trigger k with
  | some l => l.on_delete
  | none => []

/-- Number of elements of a target list structurally equal to `t`. -/
def countEq (t : TriggerTarget) : List TriggerTarget → Nat
  | [] => 0
  | x :: xs => (if x = t then 1 else 0) + countEq t xs

theorem mapInsert_same {κ α : Type} [DecidableEq κ] (m : κ → Option α) (k : κ) (v : α) :
    mapInsert m k v k = some v := by
  simp [mapInsert]

theorem mapInsert_ne {κ α : Type} [DecidableEq κ] (m : κ → Option α) (k : κ) (v : α)
    (q : κ) (hq : q ≠ k) : mapInsert m k v q = m q := by
  simp [mapInsert, hq]

theorem positionOf_eq_none_iff (t : TriggerTarget) (l : List TriggerTarget) :
    positionOf t l = none ↔ t ∉ l := by
  induction l with
  | nil => simp [positionOf]
  | cons x xs ih =>
    by_cases hx : x = t
    · subst hx
      simp [positionOf]
    · have hx' : t ≠ x := fun h => hx h.symm
      simp [positionOf, hx, Option.map_eq_none', ih, hx']

theorem positionOf_spec (t : TriggerTarget) (l : List TriggerTarget) (i : Nat)
    (h : positionOf t l = some i) :
    ∃ l1 l2, l = l1 ++ t :: l2 ∧ t ∉ l1 ∧ removeAt l i = l1 ++ l2 := by
  induction l generalizing i with
  | nil => simp [positionOf] at h
  | cons x xs ih =>
    by_cases hx : x = t
    · subst hx
      simp [positionOf] at h
      refine ⟨[], xs, rfl, by simp, ?_⟩
      rw [← h]
      rfl
    · simp [positionOf, hx] at h
      obtain ⟨j, hj, hij⟩ := h
      obtain ⟨l1, l2, hdecomp, hnot, hrm⟩ := ih j hj
      have hx' : t ≠ x := fun h => hx h.symm
      refine ⟨x :: l1, l2, by rw [hdecomp]; rfl, by simp [hx', hnot], ?_⟩
      rw [← hij]
      simpa [removeAt] using hrm

theorem positionOf_isSome_of_mem (t : TriggerTarget) (l : List TriggerTarget)
    (h : t ∈ l) : ∃ i, positionOf t l = some i := by
  cases hp : positionOf t l with
  | none => exact absurd ((positionOf_eq_none_iff t l).mp hp) (by simp [h])
  | some i => exact ⟨i, rfl⟩

theorem countEq_append (t : TriggerTarget) (l1 l2 : List TriggerTarget) :
    countEq t (l1 ++ l2) = countEq t l1 + countEq t l2 := by
  induction l1 with
  | nil => simp [countEq]
  | cons x xs ih => simp [countEq, ih]; omega

theorem countEq_eq_zero_of_not_mem (t : TriggerTarget) (l : List TriggerTarget)
    (h : t ∉ l) : countEq t l = 0 := by
  induction l with
  | nil => rfl
  | cons x xs ih =>
    simp at h
    have hx : x ≠ t := fun hxt => h.1 hxt.symm
    simp [countEq, hx, ih h.2]

theorem delete_on_complete_not_mem (e : PyObjectEvent) (s c : String) (p : Nat)
    (f : String) (o : Option Nat) (h : mkTrigger c p f o ∉ onCompleteList e s) :
    e.delete_on_complete_fn_event s c p f o = (false, e) := by
  cases hft : e.inner.func_trigger s with
  | none => simp [PyObjectEvent.delete_on_complete_fn_event, hft]
  | some l =>
    have hmem : mkTrigger c p f o ∉ l.on_complete := by
      simpa [onCompleteList, hft] using h
    simp [PyObjectEvent.delete_on_complete_fn_event, hft,
      (positionOf_eq_none_iff _ _).mpr hmem]

theorem delete_on_complete_mem_spec (e : PyObjectEvent) (s c : String) (p : Nat)
    (f : String) (o : Option Nat) (h : mkTrigger c p f o ∈ onCompleteList e s) :
    (e.delete_on_complete_fn_event s c p f o).1 = true ∧
    ∃ l1 l2, onCompleteList e s = l1 ++ mkTrigger c p f o :: l2 ∧
      mkTrigger c p f o ∉ l1 ∧
      onCompleteList (e.delete_on_complete_fn_event s c p f o).2 s = l1 ++ l2 := by
  cases hft : e.inner.func_trigger s with
  | none => simp [onCompleteList, hft] at h
  | some l =>
    have hmem : mkTrigger c p f o ∈ l.on_complete := by
      simpa [onCompleteList, hft] using h
    obtain ⟨i, hpos⟩ := positionOf_isSome_of_mem _ _ hmem
    obtain ⟨l1, l2, hdec, hnot, hrm⟩ := positionOf_spec _ _ _ hpos
    refine ⟨?_, l1, l2, ?_, hnot, ?_⟩
    · simp [PyObjectEvent.delete_on_complete_fn_event, hft, hpos]
    · simpa [onCompleteList, hft] using hdec
    · simpa [PyObjectEvent.delete_on_complete_fn_event, hft, hpos, onCompleteList,
        mapInsert] using hrm

theorem delete_on_create_not_mem (e : PyObjectEvent) (k : Nat) (c : String) (p : Nat)
    (f : String) (o : Option Nat) (h : mkTrigger c p f o ∉ onCreateList e k) :
    e.delete_on_create_data_event k c p f o = (false, e) := by
  cases hft : e.inner.data_trigger k with
  | none => simp [PyObjectEvent.delete_on_create_data_event, hft]
  | some l =>
    have hmem : mkTrigger c p f o ∉ l.on_create := by
      simpa [onCreateList, hft] using h
    simp [PyObjectEvent.delete_on_create_data_event, hft,
      (positionOf_eq_none_iff _ _).mpr hmem]

theorem delete_on_create_mem_spec (e : PyObjectEvent) (k : Nat) (c : String) (p : Nat)
    (f : String) (o : Option Nat) (h : mkTrigger c p f o ∈ onCreateList e k) :
    (e.delete_on_create_data_event k c p f o).1 = true ∧
    ∃ l1 l2, onCreateList e k = l1 ++ mkTrigger c p f o :: l2 ∧
      mkTrigger c p f o ∉ l1 ∧
      onCreateList (e.delete_on_create_data_event k c p f o).2 k = l1 ++ l2 := by
  cases hft : e.inner.data_trigger k with
  | none => simp [onCreateList, hft] at h
  | some l =>
    have hmem : mkTrigger c p f o ∈ l.on_create := by
      simpa [onCreateList, hft] using h
    obtain ⟨i, hpos⟩ := positionOf_isSome_of_mem _ _ hmem
    obtain ⟨l1, l2, hdec, hnot, hrm⟩ := positionOf_spec _ _ _ hpos
    refine ⟨?_, l1, l2, ?_, hnot, ?_⟩
    · simp [PyObjectEvent.delete_on_create_data_event, hft, hpos]
    · simpa [onCreateList, hft] using hdec
    · simpa [PyObjectEvent.delete_on_create_data_event, hft, hpos, onCreateList,
        mapInsert] using hrm

/-- C3: deleting a target that is not in the selected list (in particular
when the source id is unknown) returns `false` and leaves the whole registry
unchanged; deleting a present target returns `true`, removes exactly the
first structurally-equal match, and shrinks the selected list's length by
one.  Shown for `delete_on_complete_fn_event` and
`delete_on_create_data_event`. -/
theorem delete_return_and_effect (e : PyObjectEvent) (s : String) (k : Nat)
    (c : String) (p : Nat) (f : String) (o : Option Nat) :
    (mkTrigger c p f o ∉ onCompleteList e s →
        e.delete_on_complete_fn_event s c p f o = (false, e)) ∧
    (mkTrigger c p f o ∈ onCompleteList e s →
        (e.delete_on_complete_fn_event s c p f o).1 = true ∧
        (∃ l1 l2, onCompleteList e s = l1 ++ mkTrigger c p f o :: l2 ∧
            mkTrigger c p f o ∉ l1 ∧
            onCompleteList (e.delete_on_complete_fn_event s c p f o).2 s = l1 ++ l2) ∧
        (onCompleteList (e.delete_on_complete_fn_event s c p f o).2 s).length + 1 =
          (onCompleteList e s).length) ∧
    (mkTrigger c p f o ∉ onCreateList e k →
        e.delete_on_create_data_event k c p f o = (false, e)) ∧
    (mkTrigger c p f o ∈ onCreateList e k →
        (e.delete_on_create_data_event k c p f o).1 = true ∧
        (∃ l1 l2, onCreateList e k = l1 ++ mkTrigger c p f o :: l2 ∧
            mkTrigger c p f o ∉ l1 ∧
            onCreateList (e.delete_on_create_data_event k c p f o).2 k = l1 ++ l2) ∧
        (onCreateList (e.delete_on_create_data_event k c p f o).2 k).length + 1 =
          (onCreateList e k).length) := by
  refine ⟨delete_on_complete_not_mem e s c p f o, fun h => ?_,
    delete_on_create_not_mem e k c p f o, fun h => ?_⟩
  · obtain ⟨h1, l1, l2, hdec, hnot, hres⟩ := delete_on_complete_mem_spec e s c p f o h
    refine ⟨h1, ⟨l1, l2, hdec, hnot, hres⟩, ?_⟩
    rw [hres, hdec]
    simp [List.length_append]
    omega
  · obtain ⟨h1, l1, l2, hdec, hnot, hres⟩ := delete_on_create_mem_spec e k c p f o h
    refine ⟨h1, ⟨l1, l2, hdec, hnot, hres⟩, ?_⟩
    rw [hres, hdec]
    simp [List.length_append]
    omega

/-- Witness for C3 at concrete inputs: on the empty registry the delete is a
`false` no-op; after one add, the delete of the same target returns `true`
and empties the list again. -/
theorem delete_return_and_effect_witness :
    (PyObjectEvent.new.delete_on_complete_fn_event "s" "c" 0 "f" none
        = (false, PyObjectEvent.new)) ∧
    ((PyObjectEvent.new.add_on_create_data_event 5 "c" 0 "f" none).2.delete_on_create_data_event
        5 "c" 0 "f" none).1 = true := by
  constructor
  · exact (delete_return_and_effect PyObjectEvent.new "s" 5 "c" 0 "f" none).1
      (by decide)
  · exact (((delete_return_and_effect
      (PyObjectEvent.new.add_on_create_data_event 5 "c" 0 "f" none).2
      "s" 5 "c" 0 "f" none).2.2.2) (by decide)).1

theorem add_on_complete_mem (e : PyObjectEvent) (s c : String) (p : Nat)
    (f : String) (o : Option Nat) (h : mkTrigger c p f o ∈ onCompleteList e s) :
    e.add_on_complete_fn_event s c p f o = (false, e) := by
  cases hft : e.inner.func_trigger s with
  | none => simp [onCompleteList, hft] at h
  | some l =>
    have hmem : mkTrigger c p f o ∈ l.on_complete := by
      simpa [onCompleteList, hft] using h
    simp [PyObjectEvent.add_on_complete_fn_event, hft, hmem]

theorem add_on_complete_not_mem_spec (e : PyObjectEvent) (s c : String) (p : Nat)
    (f : String) (o : Option Nat) (h : mkTrigger c p f o ∉ onCompleteList e s) :
    (e.add_on_complete_fn_event s c p f o).1 = true ∧
    onCompleteList (e.add_on_complete_fn_event s c p f o).2 s =
      onCompleteList e s ++ [mkTrigger c p f o] := by
  cases hft : e.inner.func_trigger s with
  | none =>
    simp [PyObjectEvent.add_on_complete_fn_event, hft, onCompleteList, mapInsert]
  | some l =>
    have hmem : mkTrigger c p f o ∉ l.on_complete := by
      simpa [onCompleteList, hft] using h
    simp [PyObjectEvent.add_on_complete_fn_event, hft, hmem, onCompleteList, mapInsert]

theorem add_on_create_mem (e : PyObjectEvent) (k : Nat) (c : String) (p : Nat)
    (f : String) (o : Option Nat) (h : mkTrigger c p f o ∈ onCreateList e k) :
    e.add_on_create_data_event k c p f o = (false, e) := by
  cases hft : e.inner.data_trigger k with
  | none => simp [onCreateList, hft] at h
  | some l =>
    have hmem : mkTrigger c p f o ∈ l.on_create := by
      simpa [onCreateList, hft] using h
    simp [PyObjectEvent.add_on_create_data_event, hft, hmem]

theorem add_on_create_not_mem_spec (e : PyObjectEvent) (k : Nat) (c : String) (p : Nat)
    (f : String) (o : Option Nat) (h : mkTrigger c p f o ∉ onCreateList e k) :
    (e.add_on_create_data_event k c p f o).1 = true ∧
    onCreateList (e.add_on_create_data_event k c p f o).2 k =
      onCreateList e k ++ [mkTrigger c p f o] := by
  cases hft : e.inner.data_trigger k with
  | none =>
    simp [PyObjectEvent.add_on_create_data_event, hft, onCreateList, mapInsert]
  | some l =>
    have hmem : mkTrigger c p f o ∉ l.on_create := by
      simpa [onCreateList, hft] using h
    simp [PyObjectEvent.add_on_create_data_event, hft, hmem, onCreateList, mapInsert]

/-- C2, counterexample to the claim as stated: the claim quantifies over
*every* registry state, but on the state that already holds the target
(here: the state produced by one prior identical add) the first of the two
calls returns `false`, not `true`. -/
theorem add_twice_counterexample :
    ((PyObjectEvent.new.add_on_complete_fn_event "s" "c" 0 "f" none).2.add_on_complete_fn_event
        "s" "c" 0 "f" none).1 = false := by
  decide

/-- C2 (amended): for every registry state whose selected list does not yet
contain the target, adding the same target twice returns `true` then
`false`, the second call leaves the state unchanged, and afterwards the
selected list holds exactly one element structurally equal to the target.
Shown for `add_on_complete_fn_event` and `add_on_create_data_event`. -/
theorem add_idempotent (e : PyObjectEvent) (s : String) (k : Nat)
    (c : String) (p : Nat) (f : String) (o : Option Nat)
    (hc : mkTrigger c p f o ∉ onCompleteList e s)
    (hk : mkTrigger c p f o ∉ onCreateList e k) :
    (e.add_on_complete_fn_event s c p f o).1 = true ∧
    ((e.add_on_complete_fn_event s c p f o).2.add_on_complete_fn_event s c p f o)
        = (false, (e.add_on_complete_fn_event s c p f o).2) ∧
    countEq (mkTrigger c p f o)
        (onCompleteList (e.add_on_complete_fn_event s c p f o).2 s) = 1 ∧
    (e.add_on_create_data_event k c p f o).1 = true ∧
    ((e.add_on_create_data_event k c p f o).2.add_on_create_data_event k c p f o)
        = (false, (e.add_on_create_data_event k c p f o).2) ∧
    countEq (mkTrigger c p f o)
        (onCreateList (e.add_on_create_data_event k c p f o).2 k) = 1 := by
  obtain ⟨h1, hlist⟩ := add_on_complete_not_mem_spec e s c p f o hc
  obtain ⟨h1', hlist'⟩ := add_on_create_not_mem_spec e k c p f o hk
  have hmem : mkTrigger c p f o ∈
      onCompleteList (e.add_on_complete_fn_event s c p f o).2 s := by
    rw [hlist]; simp
  have hmem' : mkTrigger c p f o ∈
      onCreateList (e.add_on_create_data_event k c p f o).2 k := by
    rw [hlist']; simp
  refine ⟨h1, add_on_complete_mem _ s c p f o hmem, ?_, h1',
    add_on_create_mem _ k c p f o hmem', ?_⟩
  · rw [hlist, countEq_append, countEq_eq_zero_of_not_mem _ _ hc]
    simp [countEq]
  · rw [hlist', countEq_append, countEq_eq_zero_of_not_mem _ _ hk]
    simp [countEq]

/-- Witness for the amended C2 at concrete inputs, starting from the empty
registry. -/
theorem add_idempotent_witness :
    (PyObjectEvent.new.add_on_complete_fn_event "s" "c" 0 "f" none).1 = true ∧
    countEq (mkTrigger "c" 0 "f" none)
        (onCompleteList (PyObjectEvent.new.add_on_complete_fn_event "s" "c" 0 "f" none).2 "s")
      = 1 ∧
    (PyObjectEvent.new.add_on_create_data_event 5 "c" 0 "f" none).1 = true := by
  have h := add_idempotent PyObjectEvent.new "s" 5 "c" 0 "f" none
    (by decide) (by decide)
  exact ⟨h.1, h.2.2.1, h.2.2.2.1⟩

theorem add_on_update_not_mem_spec (e : PyObjectEvent) (k : Nat) (c : String) (p : Nat)
    (f : String) (o : Option Nat) (h : mkTrigger c p f o ∉ onUpdateList e k) :
    (e.add_on_update_data_event k c p f o).1 = true ∧
    onUpdateList (e.add_on_update_data_event k c p f o).2 k =
      onUpdateList e k ++ [mkTrigger c p f o] := by
  cases hft : e.inner.data_trigger k with
  | none =>
    simp [PyObjectEvent.add_on_update_data_event, hft, onUpdateList, mapInsert]
  | some l =>
    have hmem : mkTrigger c p f o ∉ l.on_update := by
      simpa [onUpdateList, hft] using h
    simp [PyObjectEvent.add_on_update_data_event, hft, hmem, onUpdateList, mapInsert]

/-- C6: starting from the empty registry, adding three pairwise-distinct
targets to the same selected list leaves the list equal to `[T1, T2, T3]` —
insertion order.  Shown for `add_on_complete_fn_event` and
`add_on_update_data_event`. -/
theorem add_order_preserved (s : String) (k : Nat)
    (c1 c2 c3 : String) (p1 p2 p3 : Nat) (f1 f2 f3 : String)
    (o1 o2 o3 : Option Nat)
    (h12 : mkTrigger c1 p1 f1 o1 ≠ mkTrigger c2 p2 f2 o2)
    (h13 : mkTrigger c1 p1 f1 o1 ≠ mkTrigger c3 p3 f3 o3)
    (h23 : mkTrigger c2 p2 f2 o2 ≠ mkTrigger c3 p3 f3 o3) :
    onCompleteList
        ((((PyObjectEvent.new.add_on_complete_fn_event s c1 p1 f1 o1).2.add_on_complete_fn_event
            s c2 p2 f2 o2).2.add_on_complete_fn_event s c3 p3 f3 o3).2) s
      = [mkTrigger c1 p1 f1 o1, mkTrigger c2 p2 f2 o2, mkTrigger c3 p3 f3 o3] ∧
    onUpdateList
        ((((PyObjectEvent.new.add_on_update_data_event k c1 p1 f1 o1).2.add_on_update_data_event
            k c2 p2 f2 o2).2.add_on_update_data_event k c3 p3 f3 o3).2) k
      = [mkTrigger c1 p1 f1 o1, mkTrigger c2 p2 f2 o2, mkTrigger c3 p3 f3 o3] := by
  constructor
  · have e0 : onCompleteList PyObjectEvent.new s = [] := rfl
    have s1 := add_on_complete_not_mem_spec PyObjectEvent.new s c1 p1 f1 o1
      (by rw [e0]; simp)
    have s2 := add_on_complete_not_mem_spec _ s c2 p2 f2 o2
      (by rw [s1.2, e0]; simpa using Ne.symm h12)
    have s3 := add_on_complete_not_mem_spec _ s c3 p3 f3 o3
      (by rw [s2.2, s1.2, e0]; simpa using ⟨Ne.symm h13, Ne.symm h23⟩)
    rw [s3.2, s2.2, s1.2, e0]
    rfl
  · have e0 : onUpdateList PyObjectEvent.new k = [] := rfl
    have s1 := add_on_update_not_mem_spec PyObjectEvent.new k c1 p1 f1 o1
      (by rw [e0]; simp)
    have s2 := add_on_update_not_mem_spec _ k c2 p2 f2 o2
      (by rw [s1.2, e0]; simpa using Ne.symm h12)
    have s3 := add_on_update_not_mem_spec _ k c3 p3 f3 o3
      (by rw [s2.2, s1.2, e0]; simpa using ⟨Ne.symm h13, Ne.symm h23⟩)
    rw [s3.2, s2.2, s1.2, e0]
    rfl

/-- Witness for C6 at three concrete distinct targets. -/
theorem add_order_preserved_witness :
    onCompleteList
        ((((PyObjectEvent.new.add_on_complete_fn_event "s" "c" 0 "a" none).2.add_on_complete_fn_event
            "s" "c" 0 "b" none).2.add_on_complete_fn_event "s" "c" 0 "d" none).2) "s"
      = [mkTrigger "c" 0 "a" none, mkTrigger "c" 0 "b" none, mkTrigger "c" 0 "d" none] :=
  (add_order_preserved "s" 5 "c" "c" "c" 0 0 0 "a" "b" "d" none none none
    (by decide) (by decide) (by decide)).1

/-- Two registries have the same key sets in both trigger maps (entry
presence, regardless of entry content). -/
def sameKeys (a b : PyObjectEvent) : Prop :=
  (∀ s, (a.inner.func_trigger s).isSome = (b.inner.func_trigger s).isSome) ∧
  (∀ k, (a.inner.data_trigger k).isSome = (b.inner.data_trigger k).isSome)

theorem mapInsert_isSome_of_occupied {κ α : Type} [DecidableEq κ]
    (m : κ → Option α) (k : κ) (v : α) (h : (m k).isSome = true) (q : κ) :
    ((mapInsert m k v) q).isSome = (m q).isSome := by
  by_cases hq : q = k
  · subst hq
    simp [mapInsert_same, h]
  · rw [mapInsert_ne _ _ _ _ hq]

theorem sameKeys_refl (e : PyObjectEvent) : sameKeys e e :=
  ⟨fun _ => rfl, fun _ => rfl⟩

theorem delete_on_complete_sameKeys (e : PyObjectEvent) (s c : String) (p : Nat)
    (f : String) (o : Option Nat) :
    sameKeys (e.delete_on_complete_fn_event s c p f o).2 e := by
  cases hft : e.inner.func_trigger s with
  | none =>
    simp only [PyObjectEvent.delete_on_complete_fn_event, hft]
    exact sameKeys_refl e
  | some l =>
    cases hpos : positionOf (mkTrigger c p f o) l.on_complete with
    | none =>
      simp only [PyObjectEvent.delete_on_complete_fn_event, hft, hpos]
      exact sameKeys_refl e
    | some i =>
      refine ⟨fun q => ?_, fun q => ?_⟩ <;>
        simp only [PyObjectEvent.delete_on_complete_fn_event, hft, hpos] <;>
        exact mapInsert_isSome_of_occupied _ _ _ (by simp [hft]) q

theorem delete_on_error_sameKeys (e : PyObjectEvent) (s c : String) (p : Nat)
    (f : String) (o : Option Nat) :
    sameKeys (e.delete_on_error_fn_event s c p f o).2 e := by
  cases hft : e.inner.func_trigger s with
  | none =>
    simp only [PyObjectEvent.delete_on_error_fn_event, hft]
    exact sameKeys_refl e
  | some l =>
    cases hpos : positionOf (mkTrigger c p f o) l.on_error with
    | none =>
      simp only [PyObjectEvent.delete_on_error_fn_event, hft, hpos]
      exact sameKeys_refl e
    | some i =>
      refine ⟨fun q => ?_, fun q => ?_⟩ <;>
        simp only [PyObjectEvent.delete_on_error_fn_event, hft, hpos] <;>
        exact mapInsert_isSome_of_occupied _ _ _ (by simp [hft]) q

theorem delete_on_create_sameKeys (e : PyObjectEvent) (k : Nat) (c : String) (p : Nat)
    (f : String) (o : Option Nat) :
    sameKeys (e.delete_on_create_data_event k c p f o).2 e := by
  cases hft : e.inner.data_trigger k with
  | none =>
    simp only [PyObjectEvent.delete_on_create_data_event, hft]
    exact sameKeys_refl e
  | some l =>
    cases hpos : positionOf (mkTrigger c p f o) l.on_create with
    | none =>
      simp only [PyObjectEvent.delete_on_create_data_event, hft, hpos]
      exact sameKeys_refl e
    | some i =>
      refine ⟨fun q => ?_, fun q => ?_⟩ <;>
        simp only [PyObjectEvent.delete_on_create_data_event, hft, hpos] <;>
        exact mapInsert_isSome_of_occupied _ _ _ (by simp [hft]) q

theorem delete_on_update_sameKeys (e : PyObjectEvent) (k : Nat) (c : String) (p : Nat)
    (f : String) (o : Option Nat) :
    sameKeys (e.delete_on_update_data_event k c p f o).2 e := by
  cases hft : e.inner.data_trigger k with
  | none =>
    simp only [PyObjectEvent.delete_on_update_data_event, hft]
    exact sameKeys_refl e
  | some l =>
    cases hpos : positionOf (mkTrigger c p f o) l.on_update with
    | none =>
      simp only [PyObjectEvent.delete_on_update_data_event, hft, hpos]
      exact sameKeys_refl e
    | some i =>
      refine ⟨fun q => ?_, fun q => ?_⟩ <;>
        simp only [PyObjectEvent.delete_on_update_data_event, hft, hpos] <;>
        exact mapInsert_isSome_of_occupied _ _ _ (by simp [hft]) q

theorem delete_on_delete_sameKeys (e : PyObjectEvent) (k : Nat) (c : String) (p : Nat)
    (f : String) (o : Option Nat) :
    sameKeys (e.delete_on_delete_data_event k c p f o).2 e := by
  cases hft : e.inner.data_trigger k with
  | none =>
    simp only [PyObjectEvent.delete_on_delete_data_event, hft]
    exact sameKeys_refl e
  | some l =>
    cases hpos : positionOf (mkTrigger c p f o) l.on_delete with
    | none =>
      simp only [PyObjectEvent.delete_on_delete_data_event, hft, hpos]
      exact sameKeys_refl e
    | some i =>
      refine ⟨fun q => ?_, fun q => ?_⟩ <;>
        simp only [PyObjectEvent.delete_on_delete_data_event, hft, hpos] <;>
        exact mapInsert_isSome_of_occupied _ _ _ (by simp [hft]) q

/-- C5: no delete operation ever removes an entry from the `func_trigger`
or `data_trigger` map — even when it removes the last target of an entry —
so the key sets of both maps are unchanged by every delete operation. -/
theorem delete_never_prunes_entries (e : PyObjectEvent) (s : String) (k : Nat)
    (c : String) (p : Nat) (f : String) (o : Option Nat) :
    sameKeys (e.delete_on_complete_fn_event s c p f o).2 e ∧
    sameKeys (e.delete_on_error_fn_event s c p f o).2 e ∧
    sameKeys (e.delete_on_create_data_event k c p f o).2 e ∧
    sameKeys (e.delete_on_update_data_event k c p f o).2 e ∧
    sameKeys (e.delete_on_delete_data_event k c p f o).2 e :=
  ⟨delete_on_complete_sameKeys e s c p f o,
   delete_on_error_sameKeys e s c p f o,
   delete_on_create_sameKeys e k c p f o,
   delete_on_update_sameKeys e k c p f o,
   delete_on_delete_sameKeys e k c p f o⟩

/-- Frame shape of a function-trigger mutation at source id `s`: the data
map is untouched and every other source id keeps its exact entry. -/
def fnFrameOk (e r : PyObjectEvent) (s : String) : Prop :=
  r.inner.data_trigger = e.inner.data_trigger ∧
  (∀ q, q ≠ s → r.inner.func_trigger q = e.inner.func_trigger q)

/-- Frame shape of a data-trigger mutation at field key `k`: the function
map is untouched and every other field key keeps its exact entry. -/
def dataFrameOk (e r : PyObjectEvent) (k : Nat) : Prop :=
  r.inner.func_trigger = e.inner.func_trigger ∧
  (∀ q, q ≠ k → r.inner.data_trigger q = e.inner.data_trigger q)

theorem add_on_complete_fn_event_frame (e : PyObjectEvent) (s c : String) (p : Nat)
    (f : String) (o : Option Nat) :
    fnFrameOk e (e.add_on_complete_fn_event s c p f o).2 s ∧
    (∀ q, onErrorList (e.add_on_complete_fn_event s c p f o).2 q = onErrorList e q) := by
  cases hft : e.inner.func_trigger s with
  | none =>
    refine ⟨⟨?_, fun q hq => ?_⟩, fun q => ?_⟩
    · simp [PyObjectEvent.add_on_complete_fn_event, hft]
    · simp [PyObjectEvent.add_on_complete_fn_event, hft, mapInsert, hq]
    · by_cases hq : q = s
      · subst hq
        simp [PyObjectEvent.add_on_complete_fn_event, hft, onErrorList, mapInsert]
      · simp [PyObjectEvent.add_on_complete_fn_event, hft, onErrorList, mapInsert, hq]
  | some l =>
    by_cases hmem : mkTrigger c p f o ∈ l.on_complete
    · refine ⟨⟨?_, fun q hq => ?_⟩, fun q => ?_⟩ <;>
        simp [PyObjectEvent.add_on_complete_fn_event, hft, hmem]
    · refine ⟨⟨?_, fun q hq => ?_⟩, fun q => ?_⟩
      · simp [PyObjectEvent.add_on_complete_fn_event, hft, hmem]
      · simp [PyObjectEvent.add_on_complete_fn_event, hft, hmem, mapInsert, hq]
      · by_cases hq : q = s
        · subst hq
          simp [PyObjectEvent.add_on_complete_fn_event, hft, hmem, onErrorList, mapInsert]
        · simp [PyObjectEvent.add_on_complete_fn_event, hft, hmem, onErrorList, mapInsert, hq]

theorem delete_on_complete_fn_event_frame (e : PyObjectEvent) (s c : String) (p : Nat)
    (f : String) (o : Option Nat) :
    fnFrameOk e (e.delete_on_complete_fn_event s c p f o).2 s ∧
    (∀ q, onErrorList (e.delete_on_complete_fn_event s c p f o).2 q = onErrorList e q) := by
  cases hft : e.inner.func_trigger s with
  | none =>
    refine ⟨⟨?_, fun q hq => ?_⟩, fun q => ?_⟩ <;>
      simp [PyObjectEvent.delete_on_complete_fn_event, hft]
  | some l =>
    cases hpos : positionOf (mkTrigger c p f o) l.on_complete with
    | none =>
      refine ⟨⟨?_, fun q hq => ?_⟩, fun q => ?_⟩ <;>
        simp [PyObjectEvent.delete_on_complete_fn_event, hft, hpos]
    | some i =>
      refine ⟨⟨?_, fun q hq => ?_⟩, fun q => ?_⟩
      · simp [PyObjectEvent.delete_on_complete_fn_event, hft, hpos]
      · simp [PyObjectEvent.delete_on_complete_fn_event, hft, hpos, mapInsert, hq]
      · by_cases hq : q = s
        · subst hq
          simp [PyObjectEvent.delete_on_complete_fn_event, hft, hpos, onErrorList, mapInsert]
        · simp [PyObjectEvent.delete_on_complete_fn_event, hft, hpos, onErrorList, mapInsert, hq]

theorem add_on_error_fn_event_frame (e : PyObjectEvent) (s c : String) (p : Nat)
    (f : String) (o : Option Nat) :
    fnFrameOk e (e.add_on_error_fn_event s c p f o).2 s ∧
    (∀ q, onCompleteList (e.add_on_error_fn_event s c p f o).2 q = onCompleteList e q) := by
  cases hft : e.inner.func_trigger s with
  | none =>
    refine ⟨⟨?_, fun q hq => ?_⟩, fun q => ?_⟩
    · simp [PyObjectEvent.add_on_error_fn_event, hft]
    · simp [PyObjectEvent.add_on_error_fn_event, hft, mapInsert, hq]
    · by_cases hq : q = s
      · subst hq
        simp [PyObjectEvent.add_on_error_fn_event, hft, onCompleteList, mapInsert]
      · simp [PyObjectEvent.add_on_error_fn_event, hft, onCompleteList, mapInsert, hq]
  | some l =>
    by_cases hmem : mkTrigger c p f o ∈ l.on_error
    · refine ⟨⟨?_, fun q hq => ?_⟩, fun q => ?_⟩ <;>
        simp [PyObjectEvent.add_on_error_fn_event, hft, hmem]
    · refine ⟨⟨?_, fun q hq => ?_⟩, fun q => ?_⟩
      · simp [PyObjectEvent.add_on_error_fn_event, hft, hmem]
      · simp [PyObjectEvent.add_on_error_fn_event, hft, hmem, mapInsert, hq]
      · by_cases hq : q = s
        · subst hq
          simp [PyObjectEvent.add_on_error_fn_event, hft, hmem, onCompleteList, mapInsert]
        · simp [PyObjectEvent.add_on_error_fn_event, hft, hmem, onCompleteList, mapInsert, hq]

theorem delete_on_error_fn_event_frame (e : PyObjectEvent) (s c : String) (p : Nat)
    (f : String) (o : Option Nat) :
    fnFrameOk e (e.delete_on_error_fn_event s c p f o).2 s ∧
    (∀ q, onCompleteList (e.delete_on_error_fn_event s c p f o).2 q = onCompleteList e q) := by
  cases hft : e.inner.func_trigger s with
  | none =>
    refine ⟨⟨?_, fun q hq => ?_⟩, fun q => ?_⟩ <;>
      simp [PyObjectEvent.delete_on_error_fn_event, hft]
  | some l =>
    cases hpos : positionOf (mkTrigger c p f o) l.on_error with
    | none =>
      refine ⟨⟨?_, fun q hq => ?_⟩, fun q => ?_⟩ <;>
        simp [PyObjectEvent.delete_on_error_fn_event, hft, hpos]
    | some i =>
      refine ⟨⟨?_, fun q hq => ?_⟩, fun q => ?_⟩
      · simp [PyObjectEvent.delete_on_error_fn_event, hft, hpos]
      · simp [PyObjectEvent.delete_on_error_fn_event, hft, hpos, mapInsert, hq]
      · by_cases hq : q = s
        · subst hq
          simp [PyObjectEvent.delete_on_error_fn_event, hft, hpos, onCompleteList, mapInsert]
        · simp [PyObjectEvent.delete_on_error_fn_event, hft, hpos, onCompleteList, mapInsert, hq]

theorem add_on_create_data_event_frame (e : PyObjectEvent) (k : Nat) (c : String) (p : Nat)
    (f : String) (o : Option Nat) :
    dataFrameOk e (e.add_on_create_data_event k c p f o).2 k ∧
    (∀ q, onUpdateList (e.add_on_create_data_event k c p f o).2 q = onUpdateList e q) ∧
    (∀ q, onDeleteList (e.add_on_create_data_event k c p f o).2 q = onDeleteList e q) := by
  cases hft : e.inner.data_trigger k with
  | none =>
    refine ⟨⟨?_, fun q hq => ?_⟩, fun q => ?_, fun q => ?_⟩
    · simp [PyObjectEvent.add_on_create_data_event, hft]
    · simp [PyObjectEvent.add_on_create_data_event, hft, mapInsert, hq]
    · by_cases hq : q = k
      · subst hq
        simp [PyObjectEvent.add_on_create_data_event, hft, onUpdateList, mapInsert]
      · simp [PyObjectEvent.add_on_create_data_event, hft, onUpdateList, mapInsert, hq]
    · by_cases hq : q = k
      · subst hq
        simp [PyObjectEvent.add_on_create_data_event, hft, onDeleteList, mapInsert]
      · simp [PyObjectEvent.add_on_create_data_event, hft, onDeleteList, mapInsert, hq]
  | some l =>
    by_cases hmem : mkTrigger c p f o ∈ l.on_create
    · refine ⟨⟨?_, fun q hq => ?_⟩, fun q => ?_, fun q => ?_⟩ <;>
        simp [PyObjectEvent.add_on_create_data_event, hft, hmem]
    · refine ⟨⟨?_, fun q hq => ?_⟩, fun q => ?_, fun q => ?_⟩
      · simp [PyObjectEvent.add_on_create_data_event, hft, hmem]
      · simp [PyObjectEvent.add_on_create_data_event, hft, hmem, mapInsert, hq]
      · by_cases hq : q = k
        · subst hq
          simp [PyObjectEvent.add_on_create_data_event, hft, hmem, onUpdateList, mapInsert]
        · simp [PyObjectEvent.add_on_create_data_event, hft, hmem, onUpdateList, mapInsert, hq]
      · by_cases hq : q = k
        · subst hq
          simp [PyObjectEvent.add_on_create_data_event, hft, hmem, onDeleteList, mapInsert]
        · simp [PyObjectEvent.add_on_create_data_event, hft, hmem, onDeleteList, mapInsert, hq]

theorem delete_on_create_data_event_frame (e : PyObjectEvent) (k : Nat) (c : String) (p : Nat)
    (f : String) (o : Option Nat) :
    dataFrameOk e (e.delete_on_create_data_event k c p f o).2 k ∧
    (∀ q, onUpdateList (e.delete_on_create_data_event k c p f o).2 q = onUpdateList e q) ∧
    (∀ q, onDeleteList (e.delete_on_create_data_event k c p f o).2 q = onDeleteList e q) := by
  cases hft : e.inner.data_trigger k with
  | none =>
    refine ⟨⟨?_, fun q hq => ?_⟩, fun q => ?_, fun q => ?_⟩ <;>
      simp [PyObjectEvent.delete_on_create_data_event, hft]
  | some l =>
    cases hpos : positionOf (mkTrigger c p f o) l.on_create with
    | none =>
      refine ⟨⟨?_, fun q hq => ?_⟩, fun q => ?_, fun q => ?_⟩ <;>
        simp [PyObjectEvent.delete_on_create_data_event, hft, hpos]
    | some i =>
      refine ⟨⟨?_, fun q hq => ?_⟩, fun q => ?_, fun q => ?_⟩
      · simp [PyObjectEvent.delete_on_create_data_event, hft, hpos]
      · simp [PyObjectEvent.delete_on_create_data_event, hft, hpos, mapInsert, hq]
      · by_cases hq : q = k
        · subst hq
          simp [PyObjectEvent.delete_on_create_data_event, hft, hpos, onUpdateList, mapInsert]
        · simp [PyObjectEvent.delete_on_create_data_event, hft, hpos, onUpdateList, mapInsert, hq]
      · by_cases hq : q = k
        · subst hq
          simp [PyObjectEvent.delete_on_create_data_event, hft, hpos, onDeleteList, mapInsert]
        · simp [PyObjectEvent.delete_on_create_data_event, hft, hpos, onDeleteList, mapInsert, hq]

theorem add_on_update_data_event_frame (e : PyObjectEvent) (k : Nat) (c : String) (p : Nat)
    (f : String) (o : Option Nat) :
    dataFrameOk e (e.add_on_update_data_event k c p f o).2 k ∧
    (∀ q, onCreateList (e.add_on_update_data_event k c p f o).2 q = onCreateList e q) ∧
    (∀ q, onDeleteList (e.add_on_update_data_event k c p f o).2 q = onDeleteList e q) := by
  cases hft : e.inner.data_trigger k with
  | none =>
    refine ⟨⟨?_, fun q hq => ?_⟩, fun q => ?_, fun q => ?_⟩
    · simp [PyObjectEvent.add_on_update_data_event, hft]
    · simp [PyObjectEvent.add_on_update_data_event, hft, mapInsert, hq]
    · by_cases hq : q = k
      · subst hq
        simp [PyObjectEvent.add_on_update_data_event, hft, onCreateList, mapInsert]
      · simp [PyObjectEvent.add_on_update_data_event, hft, onCreateList, mapInsert, hq]
    · by_cases hq : q = k
      · subst hq
        simp [PyObjectEvent.add_on_update_data_event, hft, onDeleteList, mapInsert]
      · simp [PyObjectEvent.add_on_update_data_event, hft, onDeleteList, mapInsert, hq]
  | some l =>
    by_cases hmem : mkTrigger c p f o ∈ l.on_update
    · refine ⟨⟨?_, fun q hq => ?_⟩, fun q => ?_, fun q => ?_⟩ <;>
        simp [PyObjectEvent.add_on_update_data_event, hft, hmem]
    · refine ⟨⟨?_, fun q hq => ?_⟩, fun q => ?_, fun q => ?_⟩
      · simp [PyObjectEvent.add_on_update_data_event, hft, hmem]
      · simp [PyObjectEvent.add_on_update_data_event, hft, hmem, mapInsert, hq]
      · by_cases hq : q = k
        · subst hq
          simp [PyObjectEvent.add_on_update_data_event, hft, hmem, onCreateList, mapInsert]
        · simp [PyObjectEvent.add_on_update_data_event, hft, hmem, onCreateList, mapInsert, hq]
      · by_cases hq : q = k
        · subst hq
          simp [PyObjectEvent.add_on_update_data_event, hft, hmem, onDeleteList, mapInsert]
        · simp [PyObjectEvent.add_on_update_data_event, hft, hmem, onDeleteList, mapInsert, hq]

theorem delete_on_update_data_event_frame (e : PyObjectEvent) (k : Nat) (c : String) (p : Nat)
    (f : String) (o : Option Nat) :
    dataFrameOk e (e.delete_on_update_data_event k c p f o).2 k ∧
    (∀ q, onCreateList (e.delete_on_update_data_event k c p f o).2 q = onCreateList e q) ∧
    (∀ q, onDeleteList (e.delete_on_update_data_event k c p f o).2 q = onDeleteList e q) := by
  cases hft : e.inner.data_trigger k with
  | none =>
    refine ⟨⟨?_, fun q hq => ?_⟩, fun q => ?_, fun q => ?_⟩ <;>
      simp [PyObjectEvent.delete_on_update_data_event, hft]
  | some l =>
    cases hpos : positionOf (mkTrigger c p f o) l.on_update with
    | none =>
      refine ⟨⟨?_, fun q hq => ?_⟩, fun q => ?_, fun q => ?_⟩ <;>
        simp [PyObjectEvent.delete_on_update_data_event, hft, hpos]
    | some i =>
      refine ⟨⟨?_, fun q hq => ?_⟩, fun q => ?_, fun q => ?_⟩
      · simp [PyObjectEvent.delete_on_update_data_event, hft, hpos]
      · simp [PyObjectEvent.delete_on_update_data_event, hft, hpos, mapInsert, hq]
      · by_cases hq : q = k
        · subst hq
          simp [PyObjectEvent.delete_on_update_data_event, hft, hpos, onCreateList, mapInsert]
        · simp [PyObjectEvent.delete_on_update_data_event, hft, hpos, onCreateList, mapInsert, hq]
      · by_cases hq : q = k
        · subst hq
          simp [PyObjectEvent.delete_on_update_data_event, hft, hpos, onDeleteList, mapInsert]
        · simp [PyObjectEvent.delete_on_update_data_event, hft, hpos, onDeleteList, mapInsert, hq]

theorem add_on_delete_data_event_frame (e : PyObjectEvent) (k : Nat) (c : String) (p : Nat)
    (f : String) (o : Option Nat) :
    dataFrameOk e (e.add_on_delete_data_event k c p f o).2 k ∧
    (∀ q, onCreateList (e.add_on_delete_data_event k c p f o).2 q = onCreateList e q) ∧
    (∀ q, onUpdateList (e.add_on_delete_data_event k c p f o).2 q = onUpdateList e q) := by
  cases hft : e.inner.data_trigger k with
  | none =>
    refine ⟨⟨?_, fun q hq => ?_⟩, fun q => ?_, fun q => ?_⟩
    · simp [PyObjectEvent.add_on_delete_data_event, hft]
    · simp [PyObjectEvent.add_on_delete_data_event, hft, mapInsert, hq]
    · by_cases hq : q = k
      · subst hq
        simp [PyObjectEvent.add_on_delete_data_event, hft, onCreateList, mapInsert]
      · simp [PyObjectEvent.add_on_delete_data_event, hft, onCreateList, mapInsert, hq]
    · by_cases hq : q = k
      · subst hq
        simp [PyObjectEvent.add_on_delete_data_event, hft, onUpdateList, mapInsert]
      · simp [PyObjectEvent.add_on_delete_data_event, hft, onUpdateList, mapInsert, hq]
  | some l =>
    by_cases hmem : mkTrigger c p f o ∈ l.on_delete
    · refine ⟨⟨?_, fun q hq => ?_⟩, fun q => ?_, fun q => ?_⟩ <;>
        simp [PyObjectEvent.add_on_delete_data_event, hft, hmem]
    · refine ⟨⟨?_, fun q hq => ?_⟩, fun q => ?_, fun q => ?_⟩
      · simp [PyObjectEvent.add_on_delete_data_event, hft, hmem]
      · simp [PyObjectEvent.add_on_delete_data_event, hft, hmem, mapInsert, hq]
      · by_cases hq : q = k
        · subst hq
          simp [PyObjectEvent.add_on_delete_data_event, hft, hmem, onCreateList, mapInsert]
        · simp [PyObjectEvent.add_on_delete_data_event, hft, hmem, onCreateList, mapInsert, hq]
      · by_cases hq : q = k
        · subst hq
          simp [PyObjectEvent.add_on_delete_data_event, hft, hmem, onUpdateList, mapInsert]
        · simp [PyObjectEvent.add_on_delete_data_event, hft, hmem, onUpdateList, mapInsert, hq]

theorem delete_on_delete_data_event_frame (e : PyObjectEvent) (k : Nat) (c : String) (p : Nat)
    (f : String) (o : Option Nat) :
    dataFrameOk e (e.delete_on_delete_data_event k c p f o).2 k ∧
    (∀ q, onCreateList (e.delete_on_delete_data_event k c p f o).2 q = onCreateList e q) ∧
    (∀ q, onUpdateList (e.delete_on_delete_data_event k c p f o).2 q = onUpdateList e q) := by
  cases hft : e.inner.data_trigger k with
  | none =>
    refine ⟨⟨?_, fun q hq => ?_⟩, fun q => ?_, fun q => ?_⟩ <;>
      simp [PyObjectEvent.delete_on_delete_data_event, hft]
  | some l =>
    cases hpos : positionOf (mkTrigger c p f o) l.on_delete with
    | none =>
      refine ⟨⟨?_, fun q hq => ?_⟩, fun q => ?_, fun q => ?_⟩ <;>
        simp [PyObjectEvent.delete_on_delete_data_event, hft, hpos]
    | some i =>
      refine ⟨⟨?_, fun q hq => ?_⟩, fun q => ?_, fun q => ?_⟩
      · simp [PyObjectEvent.delete_on_delete_data_event, hft, hpos]
      · simp [PyObjectEvent.delete_on_delete_data_event, hft, hpos, mapInsert, hq]
      · by_cases hq : q = k
        · subst hq
          simp [PyObjectEvent.delete_on_delete_data_event, hft, hpos, onCreateList, mapInsert]
        · simp [PyObjectEvent.delete_on_delete_data_event, hft, hpos, onCreateList, mapInsert, hq]
      · by_cases hq : q = k
        · subst hq
          simp [PyObjectEvent.delete_on_delete_data_event, hft, hpos, onUpdateList, mapInsert]
        · simp [PyObjectEvent.delete_on_delete_data_event, hft, hpos, onUpdateList, mapInsert, hq]

/-- C7: every add or delete operation on one `(source id, event kind)` list
leaves every other list unchanged — the sibling list(s) of the same entry,
every list of every other source id or field key, and the entire other
trigger map — for all ten registry operations. -/
theorem trigger_op_frame (e : PyObjectEvent) (s : String) (k : Nat)
    (c : String) (p : Nat) (f : String) (o : Option Nat) :
    (fnFrameOk e (e.add_on_complete_fn_event s c p f o).2 s ∧
      (∀ q, onErrorList (e.add_on_complete_fn_event s c p f o).2 q = onErrorList e q)) ∧
    (fnFrameOk e (e.delete_on_complete_fn_event s c p f o).2 s ∧
      (∀ q, onErrorList (e.delete_on_complete_fn_event s c p f o).2 q = onErrorList e q)) ∧
    (fnFrameOk e (e.add_on_error_fn_event s c p f o).2 s ∧
      (∀ q, onCompleteList (e.add_on_error_fn_event s c p f o).2 q = onCompleteList e q)) ∧
    (fnFrameOk e (e.delete_on_error_fn_event s c p f o).2 s ∧
      (∀ q, onCompleteList (e.delete_on_error_fn_event s c p f o).2 q = onCompleteList e q)) ∧
    (dataFrameOk e (e.add_on_create_data_event k c p f o).2 k ∧
      (∀ q, onUpdateList (e.add_on_create_data_event k c p f o).2 q = onUpdateList e q) ∧
      (∀ q, onDeleteList (e.add_on_create_data_event k c p f o).2 q = onDeleteList e q)) ∧
    (dataFrameOk e (e.delete_on_create_data_event k c p f o).2 k ∧
      (∀ q, onUpdateList (e.delete_on_create_data_event k c p f o).2 q = onUpdateList e q) ∧
      (∀ q, onDeleteList (e.delete_on_create_data_event k c p f o).2 q = onDeleteList e q)) ∧
    (dataFrameOk e (e.add_on_update_data_event k c p f o).2 k ∧
      (∀ q, onCreateList (e.add_on_update_data_event k c p f o).2 q = onCreateList e q) ∧
      (∀ q, onDeleteList (e.add_on_update_data_event k c p f o).2 q = onDeleteList e q)) ∧
    (dataFrameOk e (e.delete_on_update_data_event k c p f o).2 k ∧
      (∀ q, onCreateList (e.delete_on_update_data_event k c p f o).2 q = onCreateList e q) ∧
      (∀ q, onDeleteList (e.delete_on_update_data_event k c p f o).2 q = onDeleteList e q)) ∧
    (dataFrameOk e (e.add_on_delete_data_event k c p f o).2 k ∧
      (∀ q, onCreateList (e.add_on_delete_data_event k c p f o).2 q = onCreateList e q) ∧
      (∀ q, onUpdateList (e.add_on_delete_data_event k c p f o).2 q = onUpdateList e q)) ∧
    (dataFrameOk e (e.delete_on_delete_data_event k c p f o).2 k ∧
      (∀ q, onCreateList (e.delete_on_delete_data_event k c p f o).2 q = onCreateList e q) ∧
      (∀ q, onUpdateList (e.delete_on_delete_data_event k c p f o).2 q = onUpdateList e q)) :=
  ⟨add_on_complete_fn_event_frame e s c p f o,
 delete_on_complete_fn_event_frame e s c p f o,
 add_on_error_fn_event_frame e s c p f o,
 delete_on_error_fn_event_frame e s c p f o,
 add_on_create_data_event_frame e k c p f o,
 delete_on_create_data_event_frame e k c p f o,
 add_on_update_data_event_frame e k c p f o,
 delete_on_update_data_event_frame e k c p f o,
 add_on_delete_data_event_frame e k c p f o,
 delete_on_delete_data_event_frame e k c p f o⟩

/-- All targets of a `FuncTrigger` entry carry empty `req_options`. -/
def fnTrigOk (ft : FuncTrigger) : Prop :=
  (∀ t ∈ ft.on_complete, t.req_options = []) ∧
  (∀ t ∈ ft.on_error, t.req_options = [])

/-- All targets of a `DataTrigger` entry carry empty `req_options`. -/
def dataTrigOk (dt : DataTrigger) : Prop :=
  (∀ t ∈ dt.on_create, t.req_options = []) ∧
  (∀ t ∈ dt.on_update, t.req_options = []) ∧
  (∀ t ∈ dt.on_delete, t.req_options = [])

/-- Every target stored anywhere in the registry carries empty
`req_options`. -/
def noReqOptions (e : PyObjectEvent) : Prop :=
  (∀ s ft, e.inner.func_trigger s = some ft → fnTrigOk ft) ∧
  (∀ k dt, e.inner.data_trigger k = some dt → dataTrigOk dt)

theorem mem_of_mem_removeAt (t : TriggerTarget) (l : List TriggerTarget) (i : Nat)
    (h : t ∈ removeAt l i) : t ∈ l := by
  induction l generalizing i with
  | nil => simpa [removeAt] using h
  | cons x xs ih =>
    cases i with
    | zero =>
      simp only [removeAt] at h
      exact List.mem_cons_of_mem _ h
    | succ n =>
      simp only [removeAt] at h
      rcases List.mem_cons.mp h with h1 | h2
      · exact h1 ▸ List.mem_cons_self x xs
      · exact List.mem_cons_of_mem _ (ih n h2)

theorem noReq_update_func (e : PyObjectEvent) (s : String) (ft : FuncTrigger)
    (h : noReqOptions e) (hft : fnTrigOk ft) :
    noReqOptions ⟨{ e.inner with
      func_trigger := mapInsert e.inner.func_trigger s ft }⟩ := by
  refine ⟨fun q g hg => ?_, fun k dt hk => h.2 k dt hk⟩
  dsimp only at hg
  by_cases hq : q = s
  · subst hq
    rw [mapInsert_same] at hg
    cases hg
    exact hft
  · rw [mapInsert_ne _ _ _ _ hq] at hg
    exact h.1 q g hg

theorem noReq_update_data (e : PyObjectEvent) (k : Nat) (dt : DataTrigger)
    (h : noReqOptions e) (hdt : dataTrigOk dt) :
    noReqOptions ⟨{ e.inner with
      data_trigger := mapInsert e.inner.data_trigger k dt }⟩ := by
  refine ⟨fun s g hg => h.1 s g hg, fun q g hg => ?_⟩
  dsimp only at hg
  by_cases hq : q = k
  · subst hq
    rw [mapInsert_same] at hg
    cases hg
    exact hdt
  · rw [mapInsert_ne _ _ _ _ hq] at hg
    exact h.2 q g hg

theorem add_on_complete_fn_event_noReq (e : PyObjectEvent) (s c : String) (p : Nat)
    (f : String) (o : Option Nat) (h : noReqOptions e) :
    noReqOptions (e.add_on_complete_fn_event s c p f o).2 := by
  cases hft : e.inner.func_trigger s with
  | none =>
    simp only [PyObjectEvent.add_on_complete_fn_event, hft]
    refine noReq_update_func e s _ h ⟨?_, ?_⟩ <;> simp [mkTrigger]
  | some l =>
    by_cases hmem : mkTrigger c p f o ∈ l.on_complete
    · simp only [PyObjectEvent.add_on_complete_fn_event, hft, if_pos hmem]
      exact h
    · simp only [PyObjectEvent.add_on_complete_fn_event, hft, if_neg hmem]
      refine noReq_update_func e s _ h ⟨?_, ?_⟩
      · intro t ht
        rcases List.mem_append.mp ht with h1 | h2
        · exact (h.1 s l hft).1 t h1
        · simp at h2
          subst h2
          rfl
      · exact (h.1 s l hft).2

theorem delete_on_complete_fn_event_noReq (e : PyObjectEvent) (s c : String) (p : Nat)
    (f : String) (o : Option Nat) (h : noReqOptions e) :
    noReqOptions (e.delete_on_complete_fn_event s c p f o).2 := by
  cases hft : e.inner.func_trigger s with
  | none =>
    simp only [PyObjectEvent.delete_on_complete_fn_event, hft]
    exact h
  | some l =>
    cases hpos : positionOf (mkTrigger c p f o) l.on_complete with
    | none =>
      simp only [PyObjectEvent.delete_on_complete_fn_event, hft, hpos]
      exact h
    | some i =>
      simp only [PyObjectEvent.delete_on_complete_fn_event, hft, hpos]
      refine noReq_update_func e s _ h ⟨?_, (h.1 s l hft).2⟩
      intro t ht
      exact (h.1 s l hft).1 t (mem_of_mem_removeAt t _ i ht)

theorem add_on_error_fn_event_noReq (e : PyObjectEvent) (s c : String) (p : Nat)
    (f : String) (o : Option Nat) (h : noReqOptions e) :
    noReqOptions (e.add_on_error_fn_event s c p f o).2 := by
  cases hft : e.inner.func_trigger s with
  | none =>
    simp only [PyObjectEvent.add_on_error_fn_event, hft]
    refine noReq_update_func e s _ h ⟨?_, ?_⟩ <;> simp [mkTrigger]
  | some l =>
    by_cases hmem : mkTrigger c p f o ∈ l.on_error
    · simp only [PyObjectEvent.add_on_error_fn_event, hft, if_pos hmem]
      exact h
    · simp only [PyObjectEvent.add_on_error_fn_event, hft, if_neg hmem]
      refine noReq_update_func e s _ h ⟨(h.1 s l hft).1, ?_⟩
      · intro t ht
        rcases List.mem_append.mp ht with h1 | h2
        · exact (h.1 s l hft).2 t h1
        · simp at h2
          subst h2
          rfl

theorem delete_on_error_fn_event_noReq (e : PyObjectEvent) (s c : String) (p : Nat)
    (f : String) (o : Option Nat) (h : noReqOptions e) :
    noReqOptions (e.delete_on_error_fn_event s c p f o).2 := by
  cases hft : e.inner.func_trigger s with
  | none =>
    simp only [PyObjectEvent.delete_on_error_fn_event, hft]
    exact h
  | some l =>
    cases hpos : positionOf (mkTrigger c p f o) l.on_error with
    | none =>
      simp only [PyObjectEvent.delete_on_error_fn_event, hft, hpos]
      exact h
    | some i =>
      simp only [PyObjectEvent.delete_on_error_fn_event, hft, hpos]
      refine noReq_update_func e s _ h ⟨(h.1 s l hft).1, ?_⟩
      intro t ht
      exact (h.1 s l hft).2 t (mem_of_mem_removeAt t _ i ht)

theorem add_on_create_data_event_noReq (e : PyObjectEvent) (k : Nat) (c : String) (p : Nat)
    (f : String) (o : Option Nat) (h : noReqOptions e) :
    noReqOptions (e.add_on_create_data_event k c p f o).2 := by
  cases hft : e.inner.data_trigger k with
  | none =>
    simp only [PyObjectEvent.add_on_create_data_event, hft]
    refine noReq_update_data e k _ h ⟨?_, ?_, ?_⟩ <;> simp [mkTrigger]
  | some l =>
    by_cases hmem : mkTrigger c p f o ∈ l.on_create
    · simp only [PyObjectEvent.add_on_create_data_event, hft, if_pos hmem]
      exact h
    · simp only [PyObjectEvent.add_on_create_data_event, hft, if_neg hmem]
      refine noReq_update_data e k _ h ⟨?_, (h.2 k l hft).2.1, (h.2 k l hft).2.2⟩
      intro t ht
      rcases List.mem_append.mp ht with h1 | h2
      · exact (h.2 k l hft).1 t h1
      · simp at h2
        subst h2
        rfl

theorem delete_on_create_data_event_noReq (e : PyObjectEvent) (k : Nat) (c : String) (p : Nat)
    (f : String) (o : Option Nat) (h : noReqOptions e) :
    noReqOptions (e.delete_on_create_data_event k c p f o).2 := by
  cases hft : e.inner.data_trigger k with
  | none =>
    simp only [PyObjectEvent.delete_on_create_data_event, hft]
    exact h
  | some l =>
    cases hpos : positionOf (mkTrigger c p f o) l.on_create with
    | none =>
      simp only [PyObjectEvent.delete_on_create_data_event, hft, hpos]
      exact h
    | some i =>
      simp only [PyObjectEvent.delete_on_create_data_event, hft, hpos]
      refine noReq_update_data e k _ h ⟨?_, (h.2 k l hft).2.1, (h.2 k l hft).2.2⟩
      intro t ht
      exact (h.2 k l hft).1 t (mem_of_mem_removeAt t _ i ht)

theorem add_on_update_data_event_noReq (e : PyObjectEvent) (k : Nat) (c : String) (p : Nat)
    (f : String) (o : Option Nat) (h : noReqOptions e) :
    noReqOptions (e.add_on_update_data_event k c p f o).2 := by
  cases hft : e.inner.data_trigger k with
  | none =>
    simp only [PyObjectEvent.add_on_update_data_event, hft]
    refine noReq_update_data e k _ h ⟨?_, ?_, ?_⟩ <;> simp [mkTrigger]
  | some l =>
    by_cases hmem : mkTrigger c p f o ∈ l.on_update
    · simp only [PyObjectEvent.add_on_update_data_event, hft, if_pos hmem]
      exact h
    · simp only [PyObjectEvent.add_on_update_data_event, hft, if_neg hmem]
      refine noReq_update_data e k _ h ⟨(h.2 k l hft).1, ?_, (h.2 k l hft).2.2⟩
      intro t ht
      rcases List.mem_append.mp ht with h1 | h2
      · exact (h.2 k l hft).2.1 t h1
      · simp at h2
        subst h2
        rfl

theorem delete_on_update_data_event_noReq (e : PyObjectEvent) (k : Nat) (c : String) (p : Nat)
    (f : String) (o : Option Nat) (h : noReqOptions e) :
    noReqOptions (e.delete_on_update_data_event k c p f o).2 := by
  cases hft : e.inner.data_trigger k with
  | none =>
    simp only [PyObjectEvent.delete_on_update_data_event, hft]
    exact h
  | some l =>
    cases hpos : positionOf (mkTrigger c p f o) l.on_update with
    | none =>
      simp only [PyObjectEvent.delete_on_update_data_event, hft, hpos]
      exact h
    | some i =>
      simp only [PyObjectEvent.delete_on_update_data_event, hft, hpos]
      refine noReq_update_data e k _ h ⟨(h.2 k l hft).1, ?_, (h.2 k l hft).2.2⟩
      intro t ht
      exact (h.2 k l hft).2.1 t (mem_of_mem_removeAt t _ i ht)

theorem add_on_delete_data_event_noReq (e : PyObjectEvent) (k : Nat) (c : String) (p : Nat)
    (f : String) (o : Option Nat) (h : noReqOptions e) :
    noReqOptions (e.add_on_delete_data_event k c p f o).2 := by
  cases hft : e.inner.data_trigger k with
  | none =>
    simp only [PyObjectEvent.add_on_delete_data_event, hft]
    refine noReq_update_data e k _ h ⟨?_, ?_, ?_⟩ <;> simp [mkTrigger]
  | some l =>
    by_cases hmem : mkTrigger c p f o ∈ l.on_delete
    · simp only [PyObjectEvent.add_on_delete_data_event, hft, if_pos hmem]
      exact h
    · simp only [PyObjectEvent.add_on_delete_data_event, hft, if_neg hmem]
      refine noReq_update_data e k _ h ⟨(h.2 k l hft).1, (h.2 k l hft).2.1, ?_⟩
      intro t ht
      rcases List.mem_append.mp ht with h1 | h2
      · exact (h.2 k l hft).2.2 t h1
      · simp at h2
        subst h2
        rfl

theorem delete_on_delete_data_event_noReq (e : PyObjectEvent) (k : Nat) (c : String) (p : Nat)
    (f : String) (o : Option Nat) (h : noReqOptions e) :
    noReqOptions (e.delete_on_delete_data_event k c p f o).2 := by
  cases hft : e.inner.data_trigger k with
  | none =>
    simp only [PyObjectEvent.delete_on_delete_data_event, hft]
    exact h
  | some l =>
    cases hpos : positionOf (mkTrigger c p f o) l.on_delete with
    | none =>
      simp only [PyObjectEvent.delete_on_delete_data_event, hft, hpos]
      exact h
    | some i =>
      simp only [PyObjectEvent.delete_on_delete_data_event, hft, hpos]
      refine noReq_update_data e k _ h ⟨(h.2 k l hft).1, (h.2 k l hft).2.1, ?_⟩
      intro t ht
      exact (h.2 k l hft).2.2 t (mem_of_mem_removeAt t _ i ht)

/-- C9: the add/delete interface only ever stores targets built with
default (empty) `req_options` (`mkTrigger`), so the invariant "every stored
target has empty `req_options`" holds of the fresh registry and is
preserved by every one of the registry's add and delete operations. -/
theorem interface_targets_no_req_options :
    noReqOptions PyObjectEvent.new ∧
    (∀ e s c p f o, noReqOptions e →
        noReqOptions (PyObjectEvent.add_on_complete_fn_event e s c p f o).2) ∧
    (∀ e s c p f o, noReqOptions e →
        noReqOptions (PyObjectEvent.delete_on_complete_fn_event e s c p f o).2) ∧
    (∀ e s c p f o, noReqOptions e →
        noReqOptions (PyObjectEvent.add_on_error_fn_event e s c p f o).2) ∧
    (∀ e s c p f o, noReqOptions e →
        noReqOptions (PyObjectEvent.delete_on_error_fn_event e s c p f o).2) ∧
    (∀ e k c p f o, noReqOptions e →
        noReqOptions (PyObjectEvent.add_on_create_data_event e k c p f o).2) ∧
    (∀ e k c p f o, noReqOptions e →
        noReqOptions (PyObjectEvent.delete_on_create_data_event e k c p f o).2) ∧
    (∀ e k c p f o, noReqOptions e →
        noReqOptions (PyObjectEvent.add_on_update_data_event e k c p f o).2) ∧
    (∀ e k c p f o, noReqOptions e →
        noReqOptions (PyObjectEvent.delete_on_update_data_event e k c p f o).2) ∧
    (∀ e k c p f o, noReqOptions e →
        noReqOptions (PyObjectEvent.add_on_delete_data_event e k c p f o).2) ∧
    (∀ e k c p f o, noReqOptions e →
        noReqOptions (PyObjectEvent.delete_on_delete_data_event e k c p f o).2) := by
  refine ⟨⟨fun s ft hft => ?_, fun k dt hdt => ?_⟩,
    fun e s c p f o h => add_on_complete_fn_event_noReq e s c p f o h,
    fun e s c p f o h => delete_on_complete_fn_event_noReq e s c p f o h,
    fun e s c p f o h => add_on_error_fn_event_noReq e s c p f o h,
    fun e s c p f o h => delete_on_error_fn_event_noReq e s c p f o h,
    fun e k c p f o h => add_on_create_data_event_noReq e k c p f o h,
    fun e k c p f o h => delete_on_create_data_event_noReq e k c p f o h,
    fun e k c p f o h => add_on_update_data_event_noReq e k c p f o h,
    fun e k c p f o h => delete_on_update_data_event_noReq e k c p f o h,
    fun e k c p f o h => add_on_delete_data_event_noReq e k c p f o h,
    fun e k c p f o h => delete_on_delete_data_event_noReq e k c p f o h⟩
  · exact Option.noConfusion hft
  · exact Option.noConfusion hdt

/-- Witness for C9: the invariant holds of the empty registry, and one
concrete add through the interface preserves it. -/
theorem interface_targets_no_req_options_witness :
    noReqOptions
      (PyObjectEvent.add_on_complete_fn_event PyObjectEvent.new "s" "c" 0 "f" none).2 :=
  interface_targets_no_req_options.2.1 PyObjectEvent.new "s" "c" 0 "f" none
    interface_targets_no_req_options.1

/-- `crate::model::ObjectMetadata` (model.rs lines 240-247); `Default`
derives to zeroed ids and the empty class id. -/
structure ObjectMetadata where
  object_id : Nat
  cls_id : String
  partition_id : Nat
deriving DecidableEq

/-- `ObjectMetadata::default()`. -/
def ObjectMetadata.default : ObjectMetadata :=
  { object_id := 0, cls_id := "", partition_id := 0 }

/-- `oprc_pb::ObjMeta`: wire form of the object metadata. -/
structure ObjMeta where
  object_id : Nat
  cls_id : String
  partition_id : Nat
deriving DecidableEq

/-- `impl Into<oprc_pb::ObjMeta> for &ObjectMetadata` (model.rs 249-258). -/
def ObjectMetadata.into_proto (m : ObjectMetadata) : ObjMeta :=
  { object_id := m.object_id, cls_id := m.cls_id, partition_id := m.partition_id }

/-- `impl From<oprc_pb::ObjMeta> for ObjectMetadata` (model.rs 260-269). -/
def ObjectMetadata.from_proto (value : ObjMeta) : ObjectMetadata :=
  { object_id := value.object_id, cls_id := value.cls_id, partition_id := value.partition_id }

/-- `oprc_pb::ValData`: a raw value plus its wire type tag. -/
structure ValData where
  data : List Nat
  typ : Int
deriving DecidableEq

/-- `oprc_pb::ValType::Byte as i32` — the tag written by `into_proto`.
`ValType` lives in the generated protobuf crate; its numeric value is not
visible here and does not affect the round-trip (decoding drops it). -/
def valTypeByte : Int := 1

/-- `oprc_pb::ObjData`: wire form of an object's data bundle.  The entries
`HashMap<u32, ValData>` is embedded as a function map. -/
structure ObjData where
  metadata : Option ObjMeta
  entries : Nat → Option ValData
  event : Option ObjectEvent

/-- `crate::model::ObjectData` (model.rs lines 300-307). -/
structure ObjectData where
  meta : ObjectMetadata
  entries : Nat → Option (List Nat)
  event : Option PyObjectEvent

/-- `impl From<oprc_pb::ObjectEvent> for PyObjectEvent` (model.rs 384-389). -/
def PyObjectEvent.from_proto (value : ObjectEvent) : PyObjectEvent :=
  ⟨value⟩

/-- `PyObjectEvent::into_proto` (model.rs 391-396): clone of `inner`. -/
def PyObjectEvent.into_proto (e : PyObjectEvent) : ObjectEvent :=
  e.inner

/-- `impl From<oprc_pb::ObjData> for ObjectData` (model.rs lines 309-325):
absent metadata falls back to `Default`, entries keep only their raw
`data`, the event is wrapped. -/
def ObjectData.from_proto (value : ObjData) : ObjectData :=
  { meta := (value.metadata.map ObjectMetadata.from_proto).getD ObjectMetadata.default
    entries := fun k => (value.entries k).map (fun v => v.data)
    event := value.event.map PyObjectEvent.from_proto }

/-- `ObjectData::into_proto` (model.rs lines 327-348): metadata always
present, every entry tagged `ValType::Byte`, the event unwrapped. -/
def ObjectData.into_proto (d : ObjectData) : ObjData :=
  { metadata := some d.meta.into_proto
    entries := fun k => (d.entries k).map (fun v => { data := v, typ := valTypeByte })
    event := d.event.map PyObjectEvent.into_proto }

/-- C4: converting an `ObjectData` to its protobuf wire form and back
yields a value equal to the original in `meta`, `entries`, and `event`. -/
theorem objectdata_roundtrip (d : ObjectData) :
    ObjectData.from_proto (ObjectData.into_proto d) = d := by
  cases d with
  | mk m ent ev =>
    simp only [ObjectData.into_proto, ObjectData.from_proto, ObjectData.mk.injEq]
    refine ⟨?_, ?_, ?_⟩
    · cases m
      rfl
    · funext q
      cases ent q <;> rfl
    · cases ev <;> rfl
